import Mathlib

/-!
Verification of the devtool test-image plugin
(scripts/lib/devtool/testimage.py).

The module resolves each requested package name to a recipe metadata
record, adds the package (and its ptest variant when the record lists
one) to an install list, synthesizes a bbappend overlay, and dispatches
to the build-task invoker.  External collaborators are modelled
explicitly: the recipe metadata provider as a lookup function, the
filesystem as a directory set with a possible fault, the build invoker
as a result-code function, and the logger / tinfoil session as an
event trace.
-/

namespace Testimage

/-- Observable effects of one invocation, recorded in order. -/
inductive Event where
  | setupTinfoil : Event
  | shutdown : Event
  | logInfo : String → Event
  | logDebug : String → Event
  | buildImage : String → String → List String → Event
deriving DecidableEq

/-- A recipe metadata record as used through rd.getVar: variable lookup
returning a value or nothing. -/
structure RecipeData where
  getVar : String → Option String

/-- Characters the Python str.split and str.strip treat as whitespace
(the ASCII subset). -/
def pyIsSpace (c : Char) : Bool :=
  c == ' ' || c == '\t' || c == '\n' || c == '\r' || c == '\x0b' || c == '\x0c'

/-- Split a character list at every character satisfying p, keeping
empty chunks, as Python str.split with an explicit separator does. -/
def splitWhen (p : Char → Bool) : List Char → List (List Char)
  | [] => [[]]
  | c :: cs =>
    let r := splitWhen p cs
    if p c then [] :: r
    else
      match r with
      | [] => [[c]]
      | t :: ts => (c :: t) :: ts

/-- Python s.split() with no argument: split on whitespace runs and
drop empty tokens. -/
def pySplitWs (s : String) : List String :=
  ((splitWhen pyIsSpace s.data).filter (fun t => t ≠ [])).map List.asString

/-- Python s.split(sep) for a one-character separator: empty chunks
are kept, and the empty string yields one empty chunk. -/
def pySplitChar (sep : Char) (s : String) : List String :=
  (splitWhen (fun c => c == sep) s.data).map List.asString

/-- Python s.strip(): drop leading and trailing whitespace. -/
def pyStrip (s : String) : String :=
  (((s.data.dropWhile pyIsSpace).reverse.dropWhile pyIsSpace).reverse).asString

/-- Lexicographic code-point comparison of character lists. -/
def charListLe : List Char → List Char → Bool
  | [], _ => true
  | _ :: _, [] => false
  | a :: as, b :: bs => if a = b then charListLe as bs else decide (a < b)

/-- Python string comparison: lexicographic by code point. -/
def pyStrLe (a b : String) : Bool :=
  charListLe a.data b.data

/-- Sort a list of strings in Python sorted() order. -/
def sortStr (l : List String) : List String :=
  List.insertionSort (fun a b => pyStrLe a b = true) l

/-- Python sorted(set(l)): deduplicate, then sort lexicographically. -/
def dedupSort (l : List String) : List String :=
  sortStr l.dedup

/-- Python " ".join(l). -/
def spaceJoin : List String → String
  | [] => ""
  | [x] => x
  | x :: y :: xs => x ++ " " ++ spaceJoin (y :: xs)

/-- One step of the resolver loop body, lines 28-42 of the source:
install.append(pn); then, when pn-ptest occurs among the
whitespace-split tokens of the PACKAGES variable (empty when unset),
install.append(pn-ptest).  The trace records the logger calls. -/
def collectLoop (pr : String → Option RecipeData) (install : List String) :
    List String → List Event × Except String (List String)
  | [] => ([], .ok install)
  | pn :: rest =>
    match pr pn with
    | none => ([], .error ("Unable to find or parse recipe for package " ++ pn))
    | some rd =>
      let packages := pySplitWs ((rd.getVar "PACKAGES").getD "")
      let ptest_pkg := pn ++ "-ptest"
      if ptest_pkg ∈ packages then
        let r := collectLoop pr (install ++ [pn, ptest_pkg]) rest
        (Event.logInfo ("Including ptest package " ++ ptest_pkg) :: r.1, r.2)
      else
        let r := collectLoop pr (install ++ [pn]) rest
        (Event.logDebug ("No ptest package found for " ++ pn) :: r.1, r.2)

/-- The resolver _collect_install_packages: run the loop with an empty
install list. -/
def collect_install_packages (pr : String → Option RecipeData)
    (package_names : List String) : List Event × Except String (List String) :=
  collectLoop pr [] package_names

/-- The contribution of one resolvable package to the install list:
the package itself, immediately followed by its ptest variant when the
PACKAGES tokens of its record list that variant. -/
def installBlock (pr : String → Option RecipeData) (pn : String) : List String :=
  match pr pn with
  | none => [pn]
  | some rd =>
    if pn ++ "-ptest" ∈ pySplitWs ((rd.getVar "PACKAGES").getD "") then
      [pn, pn ++ "-ptest"]
    else
      [pn]

/-- Filesystem model: the set of existing directories plus an optional
fault that makes any creation attempt raise with the given message. -/
structure FS where
  dirs : List String
  fault : Option String

/-- Model of os.makedirs(path, exist_ok): under a fault it raises;
otherwise an existing directory raises only when exist_ok is false,
and a missing directory is created. -/
def osMakedirs (fs : FS) (path : String) (exist_ok : Bool) : Except String FS :=
  match fs.fault with
  | some msg => .error msg
  | none =>
    if path ∈ fs.dirs then
      if exist_ok then .ok fs else .error ("FileExistsError: " ++ path)
    else
      .ok { dirs := path :: fs.dirs, fault := none }

/-- Whether a string starts with a slash, on the character list. -/
def startsWithSlash (s : String) : Bool :=
  match s.data with
  | c :: _ => c == '/'
  | [] => false

/-- Whether a string ends with a slash, on the character list. -/
def endsWithSlash (s : String) : Bool :=
  match s.data.getLast? with
  | some c => c == '/'
  | none => false

/-- Model of os.path.join for two components. -/
def osPathJoin (a b : String) : String :=
  if startsWithSlash b then b
  else if a = "" then b
  else if endsWithSlash a then a ++ b
  else a ++ "/" ++ b

/-- Workspace configuration as used by the plugin. -/
structure Config where
  workspace_path : String

/-- Parsed command-line arguments: the positional image name (an empty
string models a missing or empty value) and the optional package
option (absent by default). -/
structure Args where
  imagename : String
  package : Option String

/-- Python truthiness test for the optional package argument. -/
def pyFalsy : Option String → Bool
  | none => true
  | some s => s = ""

/-- Line 54 of the source: split the package argument on commas, strip
each piece, and keep the non-blank results. -/
def packageNamesOf (pkgArg : String) : List String :=
  ((pySplitChar ',' pkgArg).map pyStrip).filter (fun p => p ≠ "")

/-- The log directory: os.path.join(config.workspace_path, "testimage-logs"). -/
def testimageLogsDirOf (config : Config) : String :=
  osPathJoin config.workspace_path "testimage-logs"

/-- The overlay statement sequence of lines 72-90 of the source, in
order, as functions of the log directory and the joined package list. -/
def extraAppendStmts (logdir pkg_append : String) : List String :=
  [ "TEST_LOG_DIR = \"" ++ logdir ++ "\"",
    "TESTIMAGE_UPDATE_VARS:append = \" TEST_LOG_DIR IMAGE_CLASSES TEST_SUITES DISTRO_FEATURES\"",
    "IMAGE_CLASSES += \" testimage\"",
    "do_testimage[depends] += \" ${PN}:do_image_complete\"",
    "TEST_SUITES = \"ping ssh ptest\"",
    "DISTRO_FEATURES:append = \" ptest\"",
    "TEST_RUNQEMUPARAMS = \"slirp\"",
    "IMAGE_FSTYPES:append = \" ext4\"",
    "QB_DEFAULT_FSTYPE = \"ext4\"",
    "IMAGE_INSTALL:append = \" " ++ pkg_append ++ "\"" ]

/-- The single depends statement of the overlay. -/
def dependsStmt : String :=
  "do_testimage[depends] += \" ${PN}:do_image_complete\""

/-- The info message logged before dispatch. -/
def buildingMsg (imagename : String) (install_pkgs : List String) : String :=
  "Building and testing image " ++ imagename ++ " with packages: " ++ spaceJoin install_pkgs

/-- The info message logged after a zero result code. -/
def completedMsg (logdir : String) : String :=
  "Testimage completed. Logs are in " ++ logdir

/-- The test_image entry point.  Validation happens first; the tinfoil
session wraps resolution with a finally-style shutdown; the log
directory is created with exist_ok; the overlay is assembled and the
build invoker result is returned unchanged, with a completion log line
on a zero result. -/
def test_image (pr : String → Option RecipeData)
    (build : String → String → List String → Int)
    (args : Args) (config : Config) (fs : FS) :
    List Event × FS × Except String Int :=
  if args.imagename = "" then
    ([], fs, .error "Image recipe to test must be specified")
  else if pyFalsy args.package then
    ([], fs, .error "Package(s) to install must be specified via -p/--package")
  else
    let package_names := packageNamesOf (args.package.getD "")
    if package_names = [] then
      ([], fs, .error "No valid package name(s) provided")
    else
      let c := collect_install_packages pr package_names
      let evs := Event.setupTinfoil :: (c.1 ++ [Event.shutdown])
      match c.2 with
      | .error e => (evs, fs, .error e)
      | .ok install_pkgs =>
        let logdir := testimageLogsDirOf config
        match osMakedirs fs logdir true with
        | .error exc =>
          (evs, fs, .error ("Failed to create test logs directory " ++ logdir ++ ": " ++ exc))
        | .ok fs2 =>
          let pkg_append := spaceJoin (dedupSort install_pkgs)
          let extra_append := extraAppendStmts logdir pkg_append
          let evs2 := evs ++ [Event.logInfo (buildingMsg args.imagename install_pkgs)]
          let result := build args.imagename "testimage" extra_append
          let evs3 := evs2 ++ [Event.buildImage args.imagename "testimage" extra_append]
          if result = 0 then
            (evs3 ++ [Event.logInfo (completedMsg logdir)], fs2, .ok result)
          else
            (evs3, fs2, .ok result)

/-- The trimmed non-blank names extracted from the package argument. -/
def requestNames (args : Args) : List String :=
  packageNamesOf (args.package.getD "")

/-- The resolver run of an invocation. -/
def resolved (pr : String → Option RecipeData) (args : Args) :
    List Event × Except String (List String) :=
  collect_install_packages pr (requestNames args)

/-- The events of the scoped tinfoil session: acquisition, the
resolver log lines, and the finally-clause shutdown. -/
def sessionTrace (pr : String → Option RecipeData) (args : Args) : List Event :=
  Event.setupTinfoil :: ((resolved pr args).1 ++ [Event.shutdown])

/-- The overlay statements of an invocation that reaches dispatch. -/
def extraOf (config : Config) (install_pkgs : List String) : List String :=
  extraAppendStmts (testimageLogsDirOf config) (spaceJoin (dedupSort install_pkgs))

/-- A provider fixture where no name resolves. -/
def prNone : String → Option RecipeData := fun _ => none

/-- A provider fixture: bash has a ptest variant, sed does not, and
nothing else resolves. -/
def prFix : String → Option RecipeData := fun pn =>
  if pn = "bash" then
    some ⟨fun v => if v = "PACKAGES" then some "bash bash-dev bash-ptest" else none⟩
  else if pn = "sed" then
    some ⟨fun v => if v = "PACKAGES" then some "sed sed-doc" else none⟩
  else none

/-- A build invoker fixture returning result code zero. -/
def buildZero : String → String → List String → Int := fun _ _ _ => 0

/-- An argument fixture requesting one package. -/
def argsBash : Args := { imagename := "core-image-minimal", package := some "bash" }

/-- A config fixture. -/
def cfgFix : Config := { workspace_path := "/ws" }

/-- An empty, healthy filesystem fixture. -/
def fsFix : FS := { dirs := [], fault := none }

/-! ### String head lemmas, used to separate message families. -/

theorem data_append (a b : String) : (a ++ b).data = a.data ++ b.data := rfl

theorem headChar_append (a x : String) (c : Char) (h : a.data.head? = some c) :
    (a ++ x).data.head? = some c := by
  rw [data_append]
  cases ha : a.data with
  | nil => rw [ha] at h; cases h
  | cons y ys => rw [ha] at h; simpa using h

theorem append_ne_append_of_headChar (a x b y : String) (c d : Char)
    (ha : a.data.head? = some c) (hb : b.data.head? = some d) (hcd : c ≠ d) :
    a ++ x ≠ b ++ y := by
  intro h
  have h1 := headChar_append a x c ha
  have h2 := headChar_append b y d hb
  rw [h, h2] at h1
  exact hcd (Option.some.inj h1).symm

theorem append_ne_of_headChar (a x b : String) (c d : Char)
    (ha : a.data.head? = some c) (hb : b.data.head? = some d) (hcd : c ≠ d) :
    a ++ x ≠ b := by
  intro h
  have h1 := headChar_append a x c ha
  rw [h, hb] at h1
  exact hcd (Option.some.inj h1).symm

/-! ### Order facts for the Python sort. -/

theorem charListLe_total : ∀ as bs : List Char,
    charListLe as bs = true ∨ charListLe bs as = true
  | [], _ => Or.inl rfl
  | _ :: _, [] => Or.inr rfl
  | a :: as, b :: bs => by
    simp only [charListLe]
    by_cases hab : a = b
    · subst hab
      simpa using charListLe_total as bs
    · rcases lt_or_gt_of_ne hab with h | h
      · left; simp [hab, h]
      · right; simp [Ne.symm hab, h]

theorem charListLe_trans : ∀ as bs cs : List Char,
    charListLe as bs = true → charListLe bs cs = true → charListLe as cs = true
  | [], _, _, _, _ => rfl
  | _ :: _, [], _, h, _ => by simp [charListLe] at h
  | _ :: _, _ :: _, [], _, h => by simp [charListLe] at h
  | a :: as, b :: bs, c :: cs, h₁, h₂ => by
    simp only [charListLe] at h₁ h₂ ⊢
    by_cases hab : a = b
    · subst hab
      by_cases hac : a = c
      · subst hac
        simp only [if_pos rfl] at h₁ h₂ ⊢
        exact charListLe_trans as bs cs h₁ h₂
      · simpa [hac] using h₂
    · by_cases hbc : b = c
      · subst hbc
        simpa [hab] using h₁
      · simp only [if_neg hab, decide_eq_true_eq] at h₁
        simp only [if_neg hbc, decide_eq_true_eq] at h₂
        have hac : a < c := lt_trans h₁ h₂
        simp [ne_of_lt hac, hac]

instance : IsTotal String (fun a b => pyStrLe a b = true) :=
  ⟨fun a b => charListLe_total a.data b.data⟩

instance : IsTrans String (fun a b => pyStrLe a b = true) :=
  ⟨fun a b c => charListLe_trans a.data b.data c.data⟩

theorem dedupSort_perm (l : List String) : (dedupSort l).Perm l.dedup :=
  List.perm_insertionSort _ _

theorem dedupSort_sorted (l : List String) :
    (dedupSort l).Sorted (fun a b => pyStrLe a b = true) :=
  List.sorted_insertionSort _ _

theorem dedupSort_nodup (l : List String) : (dedupSort l).Nodup :=
  (dedupSort_perm l).symm.nodup l.nodup_dedup

theorem mem_dedupSort (l : List String) (x : String) :
    x ∈ dedupSort l ↔ x ∈ l :=
  ((dedupSort_perm l).mem_iff).trans (List.mem_dedup)

/-! ### Characterization of the resolver loop. -/

theorem collectLoop_ok (pr : String → Option RecipeData) :
    ∀ (pns install : List String),
      (∀ pn ∈ pns, (pr pn).isSome) →
      (collectLoop pr install pns).2 = .ok (install ++ pns.flatMap (installBlock pr))
  | [], install, _ => by simp [collectLoop]
  | pn :: rest, install, h => by
    have hpn : (pr pn).isSome := h pn (by simp)
    rcases hrd : pr pn with _ | rd
    · rw [hrd] at hpn; cases hpn
    · have hrest : ∀ p ∈ rest, (pr p).isSome := fun p hp => h p (by simp [hp])
      simp only [collectLoop, hrd]
      by_cases hmem : pn ++ "-ptest" ∈ pySplitWs ((rd.getVar "PACKAGES").getD "")
      · simp only [if_pos hmem]
        rw [collectLoop_ok pr rest _ hrest]
        simp [installBlock, hrd, hmem]
      · simp only [if_neg hmem]
        rw [collectLoop_ok pr rest _ hrest]
        simp [installBlock, hrd, hmem]

theorem collectLoop_error (pr : String → Option RecipeData) (bad : String)
    (post : List String) (hbad : pr bad = none) :
    ∀ (pre install : List String), (∀ p ∈ pre, (pr p).isSome) →
      (collectLoop pr install (pre ++ bad :: post)).2 =
        .error ("Unable to find or parse recipe for package " ++ bad)
  | [], install, _ => by simp [collectLoop, hbad]
  | p :: pre, install, h => by
    have hp : (pr p).isSome := h p (by simp)
    rcases hrd : pr p with _ | rd
    · rw [hrd] at hp; cases hp
    · have hpre : ∀ q ∈ pre, (pr q).isSome := fun q hq => h q (by simp [hq])
      simp only [List.cons_append, collectLoop, hrd]
      by_cases hmem : p ++ "-ptest" ∈ pySplitWs ((rd.getVar "PACKAGES").getD "")
      · simp only [if_pos hmem]
        exact collectLoop_error pr bad post hbad pre _ hpre
      · simp only [if_neg hmem]
        exact collectLoop_error pr bad post hbad pre _ hpre

theorem collectLoop_events (pr : String → Option RecipeData) :
    ∀ (pns install : List String) (e : Event), e ∈ (collectLoop pr install pns).1 →
      (∃ s, e = Event.logInfo ("Including ptest package " ++ s)) ∨
      (∃ s, e = Event.logDebug ("No ptest package found for " ++ s))
  | [], install, e, h => by simp [collectLoop] at h
  | pn :: rest, install, e, h => by
    rcases hrd : pr pn with _ | rd
    · simp [collectLoop, hrd] at h
    · simp only [collectLoop, hrd] at h
      by_cases hmem : pn ++ "-ptest" ∈ pySplitWs ((rd.getVar "PACKAGES").getD "")
      · simp only [if_pos hmem] at h
        rcases List.mem_cons.mp h with rfl | h'
        · exact Or.inl ⟨_, rfl⟩
        · exact collectLoop_events pr rest _ e h'
      · simp only [if_neg hmem] at h
        rcases List.mem_cons.mp h with rfl | h'
        · exact Or.inr ⟨_, rfl⟩
        · exact collectLoop_events pr rest _ e h'

theorem shutdown_not_mem_resolved (pr : String → Option RecipeData) (args : Args) :
    Event.shutdown ∉ (resolved pr args).1 := by
  intro h
  rcases collectLoop_events pr _ _ _ h with ⟨s, hs⟩ | ⟨s, hs⟩ <;> cases hs

theorem setupTinfoil_not_mem_resolved (pr : String → Option RecipeData) (args : Args) :
    Event.setupTinfoil ∉ (resolved pr args).1 := by
  intro h
  rcases collectLoop_events pr _ _ _ h with ⟨s, hs⟩ | ⟨s, hs⟩ <;> cases hs

theorem buildImage_not_mem_resolved (pr : String → Option RecipeData) (args : Args)
    (i t : String) (x : List String) :
    Event.buildImage i t x ∉ (resolved pr args).1 := by
  intro h
  rcases collectLoop_events pr _ _ _ h with ⟨s, hs⟩ | ⟨s, hs⟩ <;> cases hs

theorem completed_not_mem_resolved (pr : String → Option RecipeData) (args : Args)
    (d : String) :
    Event.logInfo (completedMsg d) ∉ (resolved pr args).1 := by
  intro h
  rcases collectLoop_events pr _ _ _ h with ⟨s, hs⟩ | ⟨s, hs⟩
  · have := Event.logInfo.inj hs
    exact append_ne_append_of_headChar "Testimage completed. Logs are in " d
      "Including ptest package " s 'T' 'I' rfl rfl (by decide) (by rw [completedMsg] at this; exact this)
  · cases hs

theorem test_image_no_imagename (pr : String → Option RecipeData)
    (build : String → String → List String → Int) (args : Args) (config : Config)
    (fs : FS) (h : args.imagename = "") :
    test_image pr build args config fs =
      ([], fs, .error "Image recipe to test must be specified") := by
  simp [test_image, h]

theorem test_image_no_package (pr : String → Option RecipeData)
    (build : String → String → List String → Int) (args : Args) (config : Config)
    (fs : FS) (h1 : args.imagename ≠ "") (h2 : pyFalsy args.package = true) :
    test_image pr build args config fs =
      ([], fs, .error "Package(s) to install must be specified via -p/--package") := by
  simp [test_image, h1, h2]

theorem test_image_no_names (pr : String → Option RecipeData)
    (build : String → String → List String → Int) (args : Args) (config : Config)
    (fs : FS) (h1 : args.imagename ≠ "") (h2 : pyFalsy args.package = false)
    (h3 : requestNames args = []) :
    test_image pr build args config fs =
      ([], fs, .error "No valid package name(s) provided") := by
  rw [requestNames] at h3
  simp [test_image, h1, h2, h3]

theorem test_image_resolve_error (pr : String → Option RecipeData)
    (build : String → String → List String → Int) (args : Args) (config : Config)
    (fs : FS) (h1 : args.imagename ≠ "") (h2 : pyFalsy args.package = false)
    (h3 : requestNames args ≠ []) (e : String)
    (hc : (resolved pr args).2 = .error e) :
    test_image pr build args config fs = (sessionTrace pr args, fs, .error e) := by
  rw [resolved, requestNames] at hc
  rw [requestNames] at h3
  simp [test_image, sessionTrace, resolved, requestNames, h1, h2, h3, hc]

theorem test_image_mkdir_error (pr : String → Option RecipeData)
    (build : String → String → List String → Int) (args : Args) (config : Config)
    (fs : FS) (h1 : args.imagename ≠ "") (h2 : pyFalsy args.package = false)
    (h3 : requestNames args ≠ []) (pkgs : List String)
    (hc : (resolved pr args).2 = .ok pkgs) (exc : String)
    (hm : osMakedirs fs (testimageLogsDirOf config) true = .error exc) :
    test_image pr build args config fs = (sessionTrace pr args, fs,
      .error ("Failed to create test logs directory " ++ testimageLogsDirOf config ++ ": " ++ exc)) := by
  rw [resolved, requestNames] at hc
  rw [requestNames] at h3
  simp [test_image, sessionTrace, resolved, requestNames, h1, h2, h3, hc, hm]

theorem test_image_dispatch (pr : String → Option RecipeData)
    (build : String → String → List String → Int) (args : Args) (config : Config)
    (fs : FS) (h1 : args.imagename ≠ "") (h2 : pyFalsy args.package = false)
    (h3 : requestNames args ≠ []) (pkgs : List String)
    (hc : (resolved pr args).2 = .ok pkgs) (fs2 : FS)
    (hm : osMakedirs fs (testimageLogsDirOf config) true = .ok fs2) :
    test_image pr build args config fs =
      (sessionTrace pr args ++
        [Event.logInfo (buildingMsg args.imagename pkgs),
         Event.buildImage args.imagename "testimage" (extraOf config pkgs)] ++
        (if build args.imagename "testimage" (extraOf config pkgs) = 0
         then [Event.logInfo (completedMsg (testimageLogsDirOf config))] else []),
       fs2, .ok (build args.imagename "testimage" (extraOf config pkgs))) := by
  rw [resolved, requestNames] at hc
  rw [requestNames] at h3
  by_cases hr : build args.imagename "testimage" (extraOf config pkgs) = 0
  · rw [extraOf] at hr
    simp [test_image, sessionTrace, resolved, requestNames, extraOf, h1, h2, h3, hc, hm, hr]
  · rw [extraOf] at hr
    simp [test_image, sessionTrace, resolved, requestNames, extraOf, h1, h2, h3, hc, hm, hr]
theorem buildImage_not_mem_sessionTrace (pr : String → Option RecipeData) (args : Args)
    (i t : String) (x : List String) :
    Event.buildImage i t x ∉ sessionTrace pr args := by
  intro h
  rw [sessionTrace] at h
  rcases List.mem_cons.mp h with h' | h'
  · cases h'
  · rcases List.mem_append.mp h' with h'' | h''
    · exact buildImage_not_mem_resolved pr args i t x h''
    · rcases List.mem_singleton.mp h''

theorem count_shutdown_resolved (pr : String → Option RecipeData) (args : Args) :
    ((resolved pr args).1).count Event.shutdown = 0 :=
  List.count_eq_zero.mpr (shutdown_not_mem_resolved pr args)

theorem count_completed_resolved (pr : String → Option RecipeData) (args : Args)
    (d : String) :
    ((resolved pr args).1).count (Event.logInfo (completedMsg d)) = 0 :=
  List.count_eq_zero.mpr (completed_not_mem_resolved pr args d)

theorem completedMsg_ne_buildingMsg (d img : String) (pkgs : List String) :
    completedMsg d ≠ buildingMsg img pkgs := by
  rw [completedMsg, buildingMsg]
  exact append_ne_append_of_headChar "Testimage completed. Logs are in " d
    (("Building and testing image " ++ img) ++ " with packages: ") (spaceJoin pkgs) 'T' 'B'
    rfl (headChar_append _ _ 'B' (headChar_append _ _ 'B' rfl)) (by decide)

theorem test_image_cases (pr : String → Option RecipeData)
    (build : String → String → List String → Int) (args : Args) (config : Config)
    (fs : FS) :
    (args.imagename = "" ∧ test_image pr build args config fs =
      ([], fs, .error "Image recipe to test must be specified")) ∨
    (args.imagename ≠ "" ∧ pyFalsy args.package = true ∧ test_image pr build args config fs =
      ([], fs, .error "Package(s) to install must be specified via -p/--package")) ∨
    (args.imagename ≠ "" ∧ pyFalsy args.package = false ∧ requestNames args = [] ∧
      test_image pr build args config fs = ([], fs, .error "No valid package name(s) provided")) ∨
    (args.imagename ≠ "" ∧ pyFalsy args.package = false ∧ requestNames args ≠ [] ∧
      ∃ e, (resolved pr args).2 = .error e ∧
        test_image pr build args config fs = (sessionTrace pr args, fs, .error e)) ∨
    (args.imagename ≠ "" ∧ pyFalsy args.package = false ∧ requestNames args ≠ [] ∧
      ∃ pkgs exc, (resolved pr args).2 = .ok pkgs ∧
        osMakedirs fs (testimageLogsDirOf config) true = .error exc ∧
        test_image pr build args config fs = (sessionTrace pr args, fs,
          .error ("Failed to create test logs directory " ++ testimageLogsDirOf config ++ ": " ++ exc))) ∨
    (args.imagename ≠ "" ∧ pyFalsy args.package = false ∧ requestNames args ≠ [] ∧
      ∃ pkgs fs2, (resolved pr args).2 = .ok pkgs ∧
        osMakedirs fs (testimageLogsDirOf config) true = .ok fs2 ∧
        test_image pr build args config fs =
          (sessionTrace pr args ++
            [Event.logInfo (buildingMsg args.imagename pkgs),
             Event.buildImage args.imagename "testimage" (extraOf config pkgs)] ++
            (if build args.imagename "testimage" (extraOf config pkgs) = 0
             then [Event.logInfo (completedMsg (testimageLogsDirOf config))] else []),
           fs2, .ok (build args.imagename "testimage" (extraOf config pkgs)))) := by
  by_cases h1 : args.imagename = ""
  · exact Or.inl ⟨h1, test_image_no_imagename pr build args config fs h1⟩
  · cases hb : pyFalsy args.package with
    | true =>
      exact Or.inr (Or.inl ⟨h1, rfl, test_image_no_package pr build args config fs h1 hb⟩)
    | false =>
      by_cases h3 : requestNames args = []
      · exact Or.inr (Or.inr (Or.inl ⟨h1, rfl, h3,
          test_image_no_names pr build args config fs h1 hb h3⟩))
      · cases hc : (resolved pr args).2 with
        | error e =>
          exact Or.inr (Or.inr (Or.inr (Or.inl ⟨h1, rfl, h3, e, rfl,
            test_image_resolve_error pr build args config fs h1 hb h3 e hc⟩)))
        | ok pkgs =>
          cases hm : osMakedirs fs (testimageLogsDirOf config) true with
          | error exc =>
            exact Or.inr (Or.inr (Or.inr (Or.inr (Or.inl ⟨h1, rfl, h3, pkgs, exc, rfl, rfl,
              test_image_mkdir_error pr build args config fs h1 hb h3 pkgs hc exc hm⟩))))
          | ok fs2 =>
            exact Or.inr (Or.inr (Or.inr (Or.inr (Or.inr ⟨h1, rfl, h3, pkgs, fs2, rfl, rfl,
              test_image_dispatch pr build args config fs h1 hb h3 pkgs hc fs2 hm⟩))))
/-! ### The claims. -/

/-- Claim C10: when both the image name and the package argument are
missing, the missing-image-name error is the one raised; the
image-name check strictly precedes the package-argument check. -/
theorem C10_image_check_precedes (pr : String → Option RecipeData)
    (build : String → String → List String → Int) (args : Args) (config : Config)
    (fs : FS) (h1 : args.imagename = "") (_h2 : pyFalsy args.package = true) :
    (test_image pr build args config fs).2.2 =
      Except.error "Image recipe to test must be specified" := by
  rw [test_image_no_imagename pr build args config fs h1]

/-- Witness for C10 at a concrete invocation with both inputs missing. -/
theorem C10_witness :
    (test_image prNone buildZero { imagename := "", package := none } cfgFix fsFix).2.2 =
      Except.error "Image recipe to test must be specified" :=
  C10_image_check_precedes prNone buildZero _ cfgFix fsFix rfl rfl

/-- Claim C6: a missing image name, a missing package argument, or a
package argument yielding no non-blank trimmed names fails with a
fatal input error before provider acquisition (the trace is empty, so
no tinfoil setup happened) and before any directory creation (the
filesystem is unchanged). -/
theorem C6_validation_before_effects (pr : String → Option RecipeData)
    (build : String → String → List String → Int) (args : Args) (config : Config)
    (fs : FS)
    (h : args.imagename = "" ∨ pyFalsy args.package = true ∨ requestNames args = []) :
    (∃ msg, (test_image pr build args config fs).2.2 = Except.error msg) ∧
    (test_image pr build args config fs).1 = [] ∧
    (test_image pr build args config fs).2.1 = fs := by
  rcases test_image_cases pr build args config fs with
    ⟨h1, heq⟩ | ⟨h1, h2, heq⟩ | ⟨h1, h2, h3, heq⟩ | ⟨h1, h2, h3, e, hc, heq⟩ |
    ⟨h1, h2, h3, pkgs, exc, hc, hm, heq⟩ | ⟨h1, h2, h3, pkgs, fs2, hc, hm, heq⟩
  · rw [heq]; exact ⟨⟨_, rfl⟩, rfl, rfl⟩
  · rw [heq]; exact ⟨⟨_, rfl⟩, rfl, rfl⟩
  · rw [heq]; exact ⟨⟨_, rfl⟩, rfl, rfl⟩
  all_goals {
    rcases h with h | h | h
    · exact absurd h h1
    · simp [h] at h2
    · exact absurd h h3 }

/-- Witness for C6 at a whitespace-only package argument. -/
theorem C6_witness :
    (test_image prFix buildZero { imagename := "img", package := some " , " } cfgFix fsFix).1 = [] ∧
    (test_image prFix buildZero { imagename := "img", package := some " , " } cfgFix fsFix).2.1 = fsFix :=
  ⟨(C6_validation_before_effects prFix buildZero _ cfgFix fsFix (Or.inr (Or.inr (by decide)))).2.1,
   (C6_validation_before_effects prFix buildZero _ cfgFix fsFix (Or.inr (Or.inr (by decide)))).2.2⟩

/-- Claim C4 as stated is false: on packages nonexistent-pkg the code
raises the message with a capital Unable, not the lowercase message
the claim quotes from Scenario 4. -/
theorem C4_counterexample :
    (test_image prNone buildZero
        { imagename := "core-image-minimal", package := some "nonexistent-pkg" }
        cfgFix fsFix).2.2 =
      Except.error "Unable to find or parse recipe for package nonexistent-pkg" ∧
    (Except.error "Unable to find or parse recipe for package nonexistent-pkg" :
        Except String Int) ≠
      Except.error "unable to find or parse recipe for package nonexistent-pkg" := by
  constructor
  · rfl
  · intro h
    exact absurd (Except.error.inj h) (by decide)

/-- Claim C4 (amended): with valid arguments whose request list has a
first unresolvable name bad, the operation aborts with the error
message Unable to find or parse recipe for package followed by bad,
the filesystem is unchanged (the log directory is not created), and no
build dispatch occurs, so no partial install list is used downstream. -/
theorem C4_abort_on_first_failure (pr : String → Option RecipeData)
    (build : String → String → List String → Int) (args : Args) (config : Config)
    (fs : FS) (pre : List String) (bad : String) (post : List String)
    (h1 : args.imagename ≠ "") (h2 : pyFalsy args.package = false)
    (hsplit : requestNames args = pre ++ bad :: post)
    (hpre : ∀ p ∈ pre, (pr p).isSome) (hbad : pr bad = none) :
    (test_image pr build args config fs).2.2 =
      Except.error ("Unable to find or parse recipe for package " ++ bad) ∧
    (test_image pr build args config fs).2.1 = fs ∧
    ∀ i t x, Event.buildImage i t x ∉ (test_image pr build args config fs).1 := by
  have h3 : requestNames args ≠ [] := by rw [hsplit]; simp
  have hc : (resolved pr args).2 =
      .error ("Unable to find or parse recipe for package " ++ bad) := by
    simp only [resolved, collect_install_packages, hsplit]
    exact collectLoop_error pr bad post hbad pre [] hpre
  rw [test_image_resolve_error pr build args config fs h1 h2 h3 _ hc]
  exact ⟨rfl, rfl, fun i t x => buildImage_not_mem_sessionTrace pr args i t x⟩

/-- Witness for the amended C4 at a concrete two-package request whose
second name does not resolve. -/
theorem C4_witness :
    (test_image prFix buildZero { imagename := "img", package := some "bash,nope" } cfgFix fsFix).2.2 =
      Except.error "Unable to find or parse recipe for package nope" ∧
    (test_image prFix buildZero { imagename := "img", package := some "bash,nope" } cfgFix fsFix).2.1 =
      fsFix := by
  have h := C4_abort_on_first_failure prFix buildZero
    { imagename := "img", package := some "bash,nope" } cfgFix fsFix ["bash"] "nope" []
    (by decide) (by decide) (by decide) (by decide) rfl
  exact ⟨h.1, h.2.1⟩

/-- Claim C9: when log-directory creation fails, the result is a
domain-specific error naming the directory and wrapping the cause, and
no build is dispatched; an already-existing directory is success, the
filesystem is untouched, and the build proceeds. -/
theorem C9_logdir_handling (pr : String → Option RecipeData)
    (build : String → String → List String → Int) (args : Args) (config : Config)
    (fs : FS) (pkgs : List String)
    (h1 : args.imagename ≠ "") (h2 : pyFalsy args.package = false)
    (h3 : requestNames args ≠ []) (hc : (resolved pr args).2 = Except.ok pkgs) :
    (∀ exc, fs.fault = some exc →
      (test_image pr build args config fs).2.2 =
        Except.error ("Failed to create test logs directory " ++
          testimageLogsDirOf config ++ ": " ++ exc) ∧
      ∀ i t x, Event.buildImage i t x ∉ (test_image pr build args config fs).1) ∧
    (fs.fault = none → testimageLogsDirOf config ∈ fs.dirs →
      (test_image pr build args config fs).2.1 = fs ∧
      (test_image pr build args config fs).2.2 =
        Except.ok (build args.imagename "testimage" (extraOf config pkgs))) := by
  constructor
  · intro exc hexc
    have hm : osMakedirs fs (testimageLogsDirOf config) true = .error exc := by
      simp [osMakedirs, hexc]
    rw [test_image_mkdir_error pr build args config fs h1 h2 h3 pkgs hc exc hm]
    exact ⟨rfl, fun i t x => buildImage_not_mem_sessionTrace pr args i t x⟩
  · intro hnone hmem
    have hm : osMakedirs fs (testimageLogsDirOf config) true = .ok fs := by
      simp [osMakedirs, hnone, hmem]
    rw [test_image_dispatch pr build args config fs h1 h2 h3 pkgs hc fs hm]
    exact ⟨rfl, rfl⟩

/-- Witness for C9: a faulting filesystem yields the wrapped error and
a filesystem already holding the log directory yields success. -/
theorem C9_witness :
    (test_image prFix buildZero argsBash cfgFix { dirs := [], fault := some "boom" }).2.2 =
      Except.error "Failed to create test logs directory /ws/testimage-logs: boom" ∧
    (test_image prFix buildZero argsBash cfgFix { dirs := ["/ws/testimage-logs"], fault := none }).2.2 =
      Except.ok 0 := by
  constructor
  · exact ((C9_logdir_handling prFix buildZero argsBash cfgFix _ ["bash", "bash-ptest"]
      (by decide) (by decide) (by decide) rfl).1 "boom" rfl).1
  · exact ((C9_logdir_handling prFix buildZero argsBash cfgFix _ ["bash", "bash-ptest"]
      (by decide) (by decide) (by decide) rfl).2 rfl (by decide)).2

/-- Claim C7: whenever the tinfoil handle is acquired (a setup event
appears in the trace), the shutdown release appears exactly once in
the trace, on successful resolution and on error alike. -/
theorem C7_shutdown_once (pr : String → Option RecipeData)
    (build : String → String → List String → Int) (args : Args) (config : Config)
    (fs : FS) (h : Event.setupTinfoil ∈ (test_image pr build args config fs).1) :
    ((test_image pr build args config fs).1).count Event.shutdown = 1 := by
  rcases test_image_cases pr build args config fs with
    ⟨h1, heq⟩ | ⟨h1, h2, heq⟩ | ⟨h1, h2, h3, heq⟩ | ⟨h1, h2, h3, e, hc, heq⟩ |
    ⟨h1, h2, h3, pkgs, exc, hc, hm, heq⟩ | ⟨h1, h2, h3, pkgs, fs2, hc, hm, heq⟩
  · rw [heq] at h; simp at h
  · rw [heq] at h; simp at h
  · rw [heq] at h; simp at h
  · rw [heq]
    simp [sessionTrace, List.count_cons, List.count_append, count_shutdown_resolved]
  · rw [heq]
    simp [sessionTrace, List.count_cons, List.count_append, count_shutdown_resolved]
  · rw [heq]
    by_cases hr : build args.imagename "testimage" (extraOf config pkgs) = 0 <;>
      simp [hr, sessionTrace, List.count_cons, List.count_append, count_shutdown_resolved]

theorem dispatch_mem_inv (pr : String → Option RecipeData) (args : Args)
    (m a tk : String) (e : List String) (tl : List Event)
    (htl : ∀ ev ∈ tl, ∃ s, ev = Event.logInfo s) (i t : String) (x : List String)
    (h : Event.buildImage i t x ∈
      sessionTrace pr args ++ [Event.logInfo m, Event.buildImage a tk e] ++ tl) :
    i = a ∧ t = tk ∧ x = e := by
  rcases List.mem_append.mp h with h' | h'
  · rcases List.mem_append.mp h' with h'' | h''
    · exact absurd h'' (buildImage_not_mem_sessionTrace pr args i t x)
    · rcases List.mem_cons.mp h'' with he | he
      · cases he
      · rcases List.mem_singleton.mp he with he2
        exact ⟨(Event.buildImage.inj he2).1, (Event.buildImage.inj he2).2.1,
               (Event.buildImage.inj he2).2.2⟩
  · rcases htl _ h' with ⟨s, hs⟩
    cases hs

/-- Claim C8: an invocation that reaches dispatch returns the build
invoker result code unchanged, and when that code is zero the
completion message naming the configured log directory is logged
exactly once. -/
theorem C8_result_unchanged (pr : String → Option RecipeData)
    (build : String → String → List String → Int) (args : Args) (config : Config)
    (fs : FS) (i t : String) (x : List String)
    (h : Event.buildImage i t x ∈ (test_image pr build args config fs).1) :
    (test_image pr build args config fs).2.2 = Except.ok (build i t x) ∧
    (build i t x = 0 →
      ((test_image pr build args config fs).1).count
        (Event.logInfo (completedMsg (testimageLogsDirOf config))) = 1) := by
  rcases test_image_cases pr build args config fs with
    ⟨h1, heq⟩ | ⟨h1, h2, heq⟩ | ⟨h1, h2, h3, heq⟩ | ⟨h1, h2, h3, e, hc, heq⟩ |
    ⟨h1, h2, h3, pkgs, exc, hc, hm, heq⟩ | ⟨h1, h2, h3, pkgs, fs2, hc, hm, heq⟩
  · rw [heq] at h; simp at h
  · rw [heq] at h; simp at h
  · rw [heq] at h; simp at h
  · rw [heq] at h; exact absurd h (buildImage_not_mem_sessionTrace pr args i t x)
  · rw [heq] at h; exact absurd h (buildImage_not_mem_sessionTrace pr args i t x)
  · rw [heq] at h
    have hinv : i = args.imagename ∧ t = "testimage" ∧ x = extraOf config pkgs := by
      by_cases hr : build args.imagename "testimage" (extraOf config pkgs) = 0
      · rw [if_pos hr] at h
        exact dispatch_mem_inv pr args _ _ _ _ _ (by simp) i t x h
      · rw [if_neg hr] at h
        exact dispatch_mem_inv pr args _ _ _ _ _ (by simp) i t x h
    obtain ⟨hi, ht, hx⟩ := hinv
    subst hi; subst ht; subst hx
    rw [heq]
    constructor
    · rfl
    · intro hr
      rw [if_pos hr]
      have hne := completedMsg_ne_buildingMsg (testimageLogsDirOf config) args.imagename pkgs
      simp [sessionTrace, List.count_cons, List.count_append,
        count_completed_resolved, hne]

/-- Witness for C8 at a concrete successful invocation. -/
theorem C8_witness :
    (test_image prFix buildZero argsBash cfgFix fsFix).2.2 = Except.ok 0 ∧
    ((test_image prFix buildZero argsBash cfgFix fsFix).1).count
      (Event.logInfo (completedMsg (testimageLogsDirOf cfgFix))) = 1 := by
  have h := C8_result_unchanged prFix buildZero argsBash cfgFix fsFix
    "core-image-minimal" "testimage" (extraOf cfgFix ["bash", "bash-ptest"]) (by decide)
  exact ⟨h.1, h.2 rfl⟩
theorem testlogdir_stmt_ne_dependsStmt (logdir : String) :
    "TEST_LOG_DIR = \"" ++ logdir ++ "\"" ≠ dependsStmt := by
  rw [dependsStmt]
  exact append_ne_of_headChar ("TEST_LOG_DIR = \"" ++ logdir) "\"" _ 'T' 'd'
    (headChar_append _ _ 'T' rfl) rfl (by decide)

theorem imageinstall_stmt_ne_dependsStmt (pkg_append : String) :
    "IMAGE_INSTALL:append = \" " ++ pkg_append ++ "\"" ≠ dependsStmt := by
  rw [dependsStmt]
  exact append_ne_of_headChar ("IMAGE_INSTALL:append = \" " ++ pkg_append) "\"" _ 'I' 'd'
    (headChar_append _ _ 'I' rfl) rfl (by decide)

theorem count_depends_extraAppendStmts (logdir pkg_append : String) :
    (extraAppendStmts logdir pkg_append).count dependsStmt = 1 := by
  have hT := testlogdir_stmt_ne_dependsStmt logdir
  have hI := imageinstall_stmt_ne_dependsStmt pkg_append
  rw [dependsStmt] at hT hI
  simp [extraAppendStmts, List.count_cons, List.count_nil, dependsStmt, hT, hI]

/-- Claim C5: the overlay statement list handed to dispatch contains
exactly one depends statement (the one forcing image completion before
the test task), regardless of the image name and package list. -/
theorem C5_single_depends (pr : String → Option RecipeData)
    (build : String → String → List String → Int) (args : Args) (config : Config)
    (fs : FS) (i t : String) (x : List String)
    (h : Event.buildImage i t x ∈ (test_image pr build args config fs).1) :
    x.count dependsStmt = 1 := by
  rcases test_image_cases pr build args config fs with
    ⟨h1, heq⟩ | ⟨h1, h2, heq⟩ | ⟨h1, h2, h3, heq⟩ | ⟨h1, h2, h3, e, hc, heq⟩ |
    ⟨h1, h2, h3, pkgs, exc, hc, hm, heq⟩ | ⟨h1, h2, h3, pkgs, fs2, hc, hm, heq⟩
  · rw [heq] at h; simp at h
  · rw [heq] at h; simp at h
  · rw [heq] at h; simp at h
  · rw [heq] at h; exact absurd h (buildImage_not_mem_sessionTrace pr args i t x)
  · rw [heq] at h; exact absurd h (buildImage_not_mem_sessionTrace pr args i t x)
  · rw [heq] at h
    have hinv : i = args.imagename ∧ t = "testimage" ∧ x = extraOf config pkgs := by
      by_cases hr : build args.imagename "testimage" (extraOf config pkgs) = 0
      · rw [if_pos hr] at h
        exact dispatch_mem_inv pr args _ _ _ _ _ (by simp) i t x h
      · rw [if_neg hr] at h
        exact dispatch_mem_inv pr args _ _ _ _ _ (by simp) i t x h
    rw [hinv.2.2, extraOf]
    exact count_depends_extraAppendStmts _ _

/-- Witness for C5 at the concrete overlay of a successful invocation. -/
theorem C5_witness :
    (extraOf cfgFix ["bash", "bash-ptest"]).count dependsStmt = 1 :=
  C5_single_depends prFix buildZero argsBash cfgFix fsFix
    "core-image-minimal" "testimage" (extraOf cfgFix ["bash", "bash-ptest"]) (by decide)

/-- Claim C3: the IMAGE_INSTALL append statement is the last overlay
statement and embeds exactly the deduplicated, lexicographically
sorted, space-joined form of the resolved install list. -/
theorem C3_install_statement (pr : String → Option RecipeData)
    (build : String → String → List String → Int) (args : Args) (config : Config)
    (fs : FS) (i t : String) (x : List String)
    (h : Event.buildImage i t x ∈ (test_image pr build args config fs).1) :
    ∃ pkgs, (resolved pr args).2 = Except.ok pkgs ∧
      x.getLast? = some ("IMAGE_INSTALL:append = \" " ++
        spaceJoin (dedupSort pkgs) ++ "\"") ∧
      (dedupSort pkgs).Nodup ∧
      (dedupSort pkgs).Sorted (fun a b => pyStrLe a b = true) ∧
      ∀ s, s ∈ dedupSort pkgs ↔ s ∈ pkgs := by
  rcases test_image_cases pr build args config fs with
    ⟨h1, heq⟩ | ⟨h1, h2, heq⟩ | ⟨h1, h2, h3, heq⟩ | ⟨h1, h2, h3, e, hc, heq⟩ |
    ⟨h1, h2, h3, pkgs, exc, hc, hm, heq⟩ | ⟨h1, h2, h3, pkgs, fs2, hc, hm, heq⟩
  · rw [heq] at h; simp at h
  · rw [heq] at h; simp at h
  · rw [heq] at h; simp at h
  · rw [heq] at h; exact absurd h (buildImage_not_mem_sessionTrace pr args i t x)
  · rw [heq] at h; exact absurd h (buildImage_not_mem_sessionTrace pr args i t x)
  · rw [heq] at h
    have hinv : i = args.imagename ∧ t = "testimage" ∧ x = extraOf config pkgs := by
      by_cases hr : build args.imagename "testimage" (extraOf config pkgs) = 0
      · rw [if_pos hr] at h
        exact dispatch_mem_inv pr args _ _ _ _ _ (by simp) i t x h
      · rw [if_neg hr] at h
        exact dispatch_mem_inv pr args _ _ _ _ _ (by simp) i t x h
    refine ⟨pkgs, hc, ?_, dedupSort_nodup pkgs, dedupSort_sorted pkgs,
      fun s => mem_dedupSort pkgs s⟩
    rw [hinv.2.2, extraOf, extraAppendStmts]
    rfl

/-- Witness for C3 at a concrete invocation: the embedded list is the
sorted deduplication of bash and bash-ptest. -/
theorem C3_witness :
    (extraOf cfgFix ["bash", "bash-ptest"]).getLast? =
      some "IMAGE_INSTALL:append = \" bash bash-ptest\"" := by
  obtain ⟨pkgs, hok, hlast, hnd, hsrt, hmem⟩ :=
    C3_install_statement prFix buildZero argsBash cfgFix fsFix
      "core-image-minimal" "testimage" (extraOf cfgFix ["bash", "bash-ptest"]) (by decide)
  have hpkgs : pkgs = ["bash", "bash-ptest"] := by
    have h0 : (resolved prFix argsBash).2 = Except.ok ["bash", "bash-ptest"] := rfl
    exact Except.ok.inj (hok.symm.trans h0)
  rw [hpkgs] at hlast
  exact hlast
/-- Witness for C7 at a concrete successful invocation. -/
theorem C7_witness :
    ((test_image prFix buildZero argsBash cfgFix fsFix).1).count Event.shutdown = 1 :=
  C7_shutdown_once prFix buildZero argsBash cfgFix fsFix (by decide)

/-- Claim C1: for a package name that resolves to a record, the ptest
variant is appended to the install list exactly when that token occurs
among the whitespace-split PACKAGES tokens of the record, and in
either case resolution continues with the remaining names instead of
failing. -/
theorem C1_ptest_iff (pr : String → Option RecipeData) (pn : String)
    (rd : RecipeData) (hrd : pr pn = some rd) (install rest : List String) :
    ((pn ++ "-ptest") ∈ pySplitWs ((rd.getVar "PACKAGES").getD "") →
      (collectLoop pr install (pn :: rest)).2 =
        (collectLoop pr (install ++ [pn, pn ++ "-ptest"]) rest).2) ∧
    ((pn ++ "-ptest") ∉ pySplitWs ((rd.getVar "PACKAGES").getD "") →
      (collectLoop pr install (pn :: rest)).2 =
        (collectLoop pr (install ++ [pn]) rest).2) := by
  constructor <;> intro hmem <;> simp [collectLoop, hrd, hmem]

/-- Witness for C1: bash lists bash-ptest among its PACKAGES, so the
resolver output for bash is bash followed by bash-ptest. -/
theorem C1_witness :
    (collect_install_packages prFix ["bash"]).2 = Except.ok ["bash", "bash-ptest"] :=
  (C1_ptest_iff prFix "bash"
    ⟨fun v => if v = "PACKAGES" then some "bash bash-dev bash-ptest" else none⟩
    rfl [] []).1 (by decide)

/-- Claim C2: on a non-empty request list whose names all resolve, the
resolver succeeds and returns the request-order concatenation of
per-package blocks; each block starts with the requested package (so
its optional ptest variant follows it immediately), hence every
requested name occurs in the output. -/
theorem C2_request_order (pr : String → Option RecipeData) (pns : List String)
    (hres : ∀ pn ∈ pns, (pr pn).isSome) (_hne : pns ≠ []) :
    (collect_install_packages pr pns).2 =
      Except.ok (pns.flatMap (installBlock pr)) ∧
    (∀ pn ∈ pns, pn ∈ pns.flatMap (installBlock pr)) ∧
    (∀ pn, (installBlock pr pn).head? = some pn) := by
  refine ⟨?_, ?_, ?_⟩
  · simpa [collect_install_packages] using collectLoop_ok pr pns [] hres
  · intro pn hpn
    refine List.mem_flatMap.mpr ⟨pn, hpn, ?_⟩
    rcases hr : pr pn with _ | rd
    · simp [installBlock, hr]
    · rw [installBlock, hr]
      by_cases hmem : pn ++ "-ptest" ∈ pySplitWs ((rd.getVar "PACKAGES").getD "") <;>
        simp [hmem]
  · intro pn
    rcases hr : pr pn with _ | rd
    · simp [installBlock, hr]
    · rw [installBlock, hr]
      by_cases hmem : pn ++ "-ptest" ∈ pySplitWs ((rd.getVar "PACKAGES").getD "") <;>
        simp [hmem]

/-- Witness for C2: the resolver output for bash and sed is bash,
bash-ptest, sed in request order. -/
theorem C2_witness :
    (collect_install_packages prFix ["bash", "sed"]).2 =
      Except.ok ["bash", "bash-ptest", "sed"] :=
  (C2_request_order prFix ["bash", "sed"] (by decide) (by decide)).1
end Testimage
